import Mathlib

/-!
Shallow embedding of the OTA synchronization subsystem of the
channelManager2 repository (src/routes/auth.js, src/database/schema.sql).

Modelling conventions:
- The relational store is an explicit `DB` record threaded through each
  operation; SQL reads/writes become list operations on it.
- Dates (CURDATE, check_in_date, check_out_date) are `Int` day numbers;
  "today" and "now" are explicit parameters.
- The network is an oracle `Net : String → NetResponse` keyed by the URL an
  adapter posts to; each adapter records the calls it makes so that claims
  about "zero network calls" and about the payload passed to each partner
  can be stated.
- `logOk` models whether the INSERT inside `logSyncOperation` succeeds; the
  JS function catches its own persistence errors, which is why it is a
  plain boolean switch and never an exception.
- `Promise.all` in /sync-all is linearized as a left-to-right fold: each
  task only reads rooms/bookings (which no task writes) and writes its own
  log entries and its own configuration row, so the linearization is
  faithful for the stated properties.
-/

/-- Booking lifecycle status (bookings.booking_status enum in schema.sql). -/
inductive BookingStatus where
  | pending
  | confirmed
  | cancelled
  | completed
deriving DecidableEq, Repr

/-- A row of the rooms table (the columns the sync subsystem reads). -/
structure Room where
  id : Nat
  room_name : String
  price_per_night : Int
  is_active : Bool
deriving DecidableEq, Repr

/-- A row of the bookings table (the columns the availability query reads). -/
structure Booking where
  room_id : Nat
  booking_status : BookingStatus
  check_in_date : Int
  check_out_date : Int
deriving DecidableEq, Repr

/-- A row of ota_configurations (schema.sql lines 131-145). -/
structure Config where
  id : Nat
  ota_name : String
  api_key : Option String
  api_username : Option String
  api_password : Option String
  endpoint_url : String
  hotel_id : Option String
  is_active : Bool
  last_sync_at : Option Nat
  sync_frequency : Nat
deriving DecidableEq, Repr

/-- A row of ota_sync_logs (schema.sql lines 147-158). -/
structure SyncLog where
  ota_configuration_id : Nat
  sync_type : String
  status : String
  message : String
  records_processed : Nat
deriving DecidableEq, Repr

/-- The persistent state the sync subsystem touches. `next_id` models the
AUTO_INCREMENT counter of ota_configurations. -/
structure DB where
  configurations : List Config
  rooms : List Room
  bookings : List Booking
  sync_logs : List SyncLog
  next_id : Nat
deriving DecidableEq, Repr

/-- One row of the availability snapshot (`rooms` result set in
performOTASync, auth.js lines 1186-1199). -/
structure RoomAvailabilityRecord where
  id : Nat
  room_name : String
  price_per_night : Int
  is_available : Bool
deriving DecidableEq, Repr

/-- The join condition of the availability query: a booking that blocks
`roomId` today (status in pending/confirmed, check_in <= today < check_out). -/
def bookingBlocks (today : Int) (roomId : Nat) (b : Booking) : Bool :=
  b.room_id == roomId &&
  (b.booking_status == .pending || b.booking_status == .confirmed) &&
  decide (b.check_in_date ≤ today) && decide (today < b.check_out_date)

/-- The availability snapshot query in performOTASync: all active rooms,
each marked available iff no pending/confirmed booking covers today
(half-open stay interval). -/
def buildSnapshot (db : DB) (today : Int) : List RoomAvailabilityRecord :=
  (db.rooms.filter (·.is_active)).map (fun r =>
    { id := r.id
      room_name := r.room_name
      price_per_night := r.price_per_night
      is_available := !(db.bookings.any (bookingBlocks today r.id)) })

/-- Result of one HTTP request to a partner endpoint (the axios call either
resolves or throws with an error message). -/
inductive NetResponse where
  | ok (body : String)
  | fail (errMsg : String)
deriving DecidableEq, Repr

/-- Network oracle: what happens when the adapter calls a given URL. -/
def Net := String → NetResponse

/-- A recorded outbound call: the URL hit and the availability records the
adapter serialized into the request body. -/
structure NetCall where
  url : String
  rooms : List RoomAvailabilityRecord
deriving DecidableEq, Repr

/-- Result shape returned by each adapter and by performOTASync. -/
structure SyncOutcome where
  success : Bool
  message : String
deriving DecidableEq, Repr

/-- syncBookingComARI (auth.js): posts the XML payload to
config.endpoint_url; a transport error is caught and converted into a
failed outcome. -/
def syncBookingComARI (net : Net) (config : Config)
    (rooms : List RoomAvailabilityRecord) : SyncOutcome × List NetCall :=
  match net config.endpoint_url with
  | .ok _ =>
      ({ success := true, message := "Booking.com ARI sync completed successfully" },
       [{ url := config.endpoint_url, rooms := rooms }])
  | .fail e =>
      ({ success := false, message := "Booking.com sync failed: " ++ e },
       [{ url := config.endpoint_url, rooms := rooms }])

/-- syncAgodaARI (auth.js): posts the JSON payload to config.endpoint_url. -/
def syncAgodaARI (net : Net) (config : Config)
    (rooms : List RoomAvailabilityRecord) : SyncOutcome × List NetCall :=
  match net config.endpoint_url with
  | .ok _ =>
      ({ success := true, message := "Agoda ARI sync completed successfully" },
       [{ url := config.endpoint_url, rooms := rooms }])
  | .fail e =>
      ({ success := false, message := "Agoda sync failed: " ++ e },
       [{ url := config.endpoint_url, rooms := rooms }])

/-- syncAirbnbARI (auth.js): posts the JSON payload to config.endpoint_url. -/
def syncAirbnbARI (net : Net) (config : Config)
    (rooms : List RoomAvailabilityRecord) : SyncOutcome × List NetCall :=
  match net config.endpoint_url with
  | .ok _ =>
      ({ success := true, message := "Airbnb ARI sync completed successfully" },
       [{ url := config.endpoint_url, rooms := rooms }])
  | .fail e =>
      ({ success := false, message := "Airbnb sync failed: " ++ e },
       [{ url := config.endpoint_url, rooms := rooms }])

/-- The three partner adapters the switch in performOTASync knows. -/
inductive Partner where
  | booking_com
  | agoda
  | airbnb
deriving DecidableEq, Repr

/-- JS String.prototype.toLowerCase, modelled as the per-character lowercase
map (which is exactly what lowercasing does on these ASCII partner names). -/
def lowerString (s : String) : String :=
  ⟨s.data.map Char.toLower⟩

/-- The switch on config.ota_name.toLowerCase() in performOTASync and
test-connection: which adapter a name dispatches to, if any. -/
def adapterFor (name : String) : Option Partner :=
  let n := lowerString name
  if n == "booking.com" || n == "booking_com" then some .booking_com
  else if n == "agoda" then some .agoda
  else if n == "airbnb" then some .airbnb
  else none

/-- Adapter dispatch: `none` corresponds to the `throw new Error
("Unsupported OTA: ...")` default branch (no network call made). -/
def dispatchSync (net : Net) (config : Config)
    (rooms : List RoomAvailabilityRecord) : Option (SyncOutcome × List NetCall) :=
  match adapterFor config.ota_name with
  | some .booking_com => some (syncBookingComARI net config rooms)
  | some .agoda => some (syncAgodaARI net config rooms)
  | some .airbnb => some (syncAirbnbARI net config rooms)
  | none => none

/-- logSyncOperation (auth.js lines 909-919): inserts one row into
ota_sync_logs; its own try/catch swallows a failed insert (`logOk = false`),
so it never throws and on failure leaves the store unchanged. -/
def logSyncOperation (logOk : Bool) (db : DB) (entry : SyncLog) : DB :=
  if logOk then { db with sync_logs := db.sync_logs ++ [entry] } else db

/-- The UPDATE ... SET last_sync_at = NOW() statement in performOTASync. -/
def updateLastSync (db : DB) (id : Nat) (now : Nat) : DB :=
  { db with configurations := db.configurations.map (fun c =>
      if c.id == id then { c with last_sync_at := some now } else c) }

/-- Everything one performOTASync call produces: the outcome returned to the
caller, the store afterwards, the outbound network calls, and how many times
the availability snapshot query ran. -/
structure SyncStep where
  outcome : SyncOutcome
  db : DB
  netCalls : List NetCall
  snapshotsComputed : Nat
deriving Repr

/-- performOTASync (auth.js lines 1183-1267): runs the availability query,
dispatches on the lowercased ota_name, logs the outcome and updates
last_sync_at; the unsupported-OTA branch throws, so the catch block logs a
failed attempt (records_processed 0) and returns a failed outcome WITHOUT
updating last_sync_at. -/
def performOTASync (net : Net) (logOk : Bool) (today : Int) (now : Nat)
    (db : DB) (config : Config) : SyncStep :=
  let rooms := buildSnapshot db today
  match dispatchSync net config rooms with
  | some (syncResult, calls) =>
      let db1 := logSyncOperation logOk db
        { ota_configuration_id := config.id
          sync_type := "availability"
          status := if syncResult.success then "success" else "failed"
          message := syncResult.message
          records_processed := rooms.length }
      let db2 := updateLastSync db1 config.id now
      { outcome := syncResult, db := db2, netCalls := calls, snapshotsComputed := 1 }
  | none =>
      let msg := "Unsupported OTA: " ++ config.ota_name
      let db1 := logSyncOperation logOk db
        { ota_configuration_id := config.id
          sync_type := "availability"
          status := "failed"
          message := msg
          records_processed := 0 }
      { outcome := { success := false, message := msg }, db := db1,
        netCalls := [], snapshotsComputed := 1 }

/-- Per-partner result entry assembled by POST /sync-all. -/
structure PartnerResult where
  ota_name : String
  success : Bool
  message : String
deriving DecidableEq, Repr

/-- The fan-out of /sync-all over the active configurations, linearized:
one performOTASync per configuration, results collected in order. -/
def runAll (net : Net) (logOk : Bool) (today : Int) (now : Nat) :
    DB → List Config → List PartnerResult × DB × List NetCall × Nat
  | db, [] => ([], db, [], 0)
  | db, c :: cs =>
      let s := performOTASync net logOk today now db c
      let (rs, db', calls, k) := runAll net logOk today now s.db cs
      ({ ota_name := c.ota_name, success := s.outcome.success,
         message := s.outcome.message } :: rs,
       db', s.netCalls ++ calls, s.snapshotsComputed + k)

/-- Aggregate body returned by POST /sync-all. -/
structure AggregateResult where
  total_otas : Nat
  successful_syncs : Nat
  failed_syncs : Nat
  results : List PartnerResult
deriving Repr

/-- POST /sync-all (auth.js lines 1293-1324): loads active configurations,
errors when none, otherwise syncs each and aggregates success/failure
counts from the collected results. -/
def syncAll (net : Net) (logOk : Bool) (today : Int) (now : Nat) (db : DB) :
    Except String (AggregateResult × DB × List NetCall × Nat) :=
  let configs := db.configurations.filter (·.is_active)
  if configs.isEmpty then
    .error "No active OTA configurations found"
  else
    let r := runAll net logOk today now db configs
    .ok ({ total_otas := configs.length
           successful_syncs := (r.1.filter (·.success)).length
           failed_syncs := (r.1.filter (fun x => !x.success)).length
           results := r.1 }, r.2.1, r.2.2.1, r.2.2.2)

/-- POST /sync/:id (auth.js lines 1270-1290): loads the configuration, which
must exist and be active, then performs one sync. -/
def syncOne (net : Net) (logOk : Bool) (today : Int) (now : Nat)
    (db : DB) (id : Nat) : Except String SyncStep :=
  match db.configurations.find? (fun c => c.id == id && c.is_active) with
  | none => .error "Active OTA configuration not found"
  | some config => .ok (performOTASync net logOk today now db config)

/-- Request body of POST /configurations; `ota_name` and `endpoint_url` are
plain strings because the handler requires them truthy (empty string is the
JS falsy case); the rest may be absent. -/
structure CreateBody where
  ota_name : String
  api_key : Option String
  api_username : Option String
  api_password : Option String
  endpoint_url : String
  hotel_id : Option String
  sync_frequency : Nat
deriving DecidableEq, Repr

/-- POST /configurations (auth.js lines 938-996): requires ota_name and
endpoint_url, rejects a duplicate ota_name (SELECT ... WHERE ota_name = ?),
then inserts with schema defaults is_active = TRUE, last_sync_at = NULL.
The duplicate check's SQL string equality runs under the ota_name column's
collation; schema.sql declares none, so MySQL's default case-insensitive
collation governs it, modelled here as equality of the lowercased names. -/
def createConfiguration (db : DB) (body : CreateBody) : Except String DB :=
  if body.ota_name == "" || body.endpoint_url == "" then
    .error "OTA name and endpoint URL are required"
  else if db.configurations.any
      (fun c => lowerString c.ota_name == lowerString body.ota_name) then
    .error "Configuration already exists for this OTA"
  else
    .ok { db with
      configurations := db.configurations ++
        [{ id := db.next_id
           ota_name := body.ota_name
           api_key := body.api_key
           api_username := body.api_username
           api_password := body.api_password
           endpoint_url := body.endpoint_url
           hotel_id := body.hotel_id
           is_active := true
           last_sync_at := none
           sync_frequency := body.sync_frequency }]
      next_id := db.next_id + 1 }

/-- Request body of PUT /configurations/:id: the handler writes every field
from the body, with no uniqueness check on ota_name. -/
structure UpdateBody where
  ota_name : String
  api_key : Option String
  api_username : Option String
  api_password : Option String
  endpoint_url : String
  hotel_id : Option String
  sync_frequency : Nat
  is_active : Bool
deriving DecidableEq, Repr

/-- PUT /configurations/:id (auth.js lines 999-1038): 404 when the id does
not exist, otherwise overwrites all columns of the row from the body. -/
def updateConfiguration (db : DB) (id : Nat) (body : UpdateBody) :
    Except String DB :=
  if (db.configurations.find? (fun c => c.id == id)).isNone then
    .error "Configuration not found"
  else
    .ok { db with configurations := db.configurations.map (fun c =>
      if c.id == id then
        { c with
          ota_name := body.ota_name
          api_key := body.api_key
          api_username := body.api_username
          api_password := body.api_password
          endpoint_url := body.endpoint_url
          hotel_id := body.hotel_id
          sync_frequency := body.sync_frequency
          is_active := body.is_active }
      else c) }

/-- DELETE /configurations/:id (auth.js lines 1041-1062) together with the
schema constraint: ota_sync_logs carries FOREIGN KEY (ota_configuration_id)
REFERENCES ota_configurations(id) with no ON DELETE action, so MySQL
restricts the DELETE when any log row references the configuration; the
route's catch turns that into the generic internal error response. -/
def deleteConfiguration (db : DB) (id : Nat) : Except String DB :=
  if (db.configurations.find? (fun c => c.id == id)).isNone then
    .error "Configuration not found"
  else if db.sync_logs.any (fun l => l.ota_configuration_id == id) then
    .error "Internal server error"
  else
    .ok { db with configurations := db.configurations.filter (fun c => !(c.id == id)) }

/-- One row of the GET /sync-logs result: a log entry joined with its
configuration's ota_name. -/
structure LogView where
  log : SyncLog
  ota_name : String
deriving DecidableEq, Repr

/-- GET /sync-logs (auth.js lines 1327-1359): INNER JOIN of ota_sync_logs
with ota_configurations on the configuration id, optionally filtered by
ota_id. Ordering and LIMIT/OFFSET pagination are elided; the join and
filter determine which entries can be returned at all. -/
def listSyncLogs (db : DB) (ota_id : Option Nat) : List LogView :=
  (db.sync_logs.filter (fun l =>
      match ota_id with
      | some i => l.ota_configuration_id == i
      | none => true)).filterMap (fun l =>
    (db.configurations.find? (fun c => c.id == l.ota_configuration_id)).map
      (fun c => { log := l, ota_name := c.ota_name }))

/-- Outcome shape of POST /test-connection/:id. -/
structure ConnOutcome where
  success : Bool
  message : String
deriving DecidableEq, Repr

/-- POST /test-connection/:id (auth.js lines 1362-1447): loads the
configuration (no is_active requirement), probes the partner endpoint per
the lowercased ota_name, and only reads the store — the handler contains no
INSERT or UPDATE, so the state it returns is the state it was given. -/
def testConnection (net : Net) (db : DB) (id : Nat) :
    Except String ConnOutcome × DB :=
  match db.configurations.find? (fun c => c.id == id) with
  | none => (.error "OTA configuration not found", db)
  | some config =>
    let result :=
      match adapterFor config.ota_name with
      | some .booking_com =>
          match net config.endpoint_url with
          | .ok _ => { success := true, message := "Booking.com connection successful" }
          | .fail e => { success := false, message := "Connection failed: " ++ e }
      | some .agoda =>
          match net config.endpoint_url with
          | .ok _ => { success := true, message := "Agoda connection successful" }
          | .fail e => { success := false, message := "Connection failed: " ++ e }
      | some .airbnb =>
          match net (config.endpoint_url ++ "/test") with
          | .ok _ => { success := true, message := "Airbnb connection successful" }
          | .fail e => { success := false, message := "Connection failed: " ++ e }
      | none => { success := false, message := "Unsupported OTA: " ++ config.ota_name }
    (.ok result, db)

/-- Uniqueness invariant claimed of the configuration store: no two stored
configurations share an ota_name. -/
def uniqueOtaNames (db : DB) : Prop :=
  (db.configurations.map (·.ota_name)).Nodup

instance (db : DB) : Decidable (uniqueOtaNames db) := by
  unfold uniqueOtaNames; infer_instance

/-- The outcome a sync attempt for `config` produces, as a function of the
configuration and the network alone (the store only determines the payload
and the records_processed count, not success or message). -/
def syncOutcomeOf (net : Net) (config : Config) : SyncOutcome :=
  match adapterFor config.ota_name with
  | some .booking_com =>
      match net config.endpoint_url with
      | .ok _ => { success := true, message := "Booking.com ARI sync completed successfully" }
      | .fail e => { success := false, message := "Booking.com sync failed: " ++ e }
  | some .agoda =>
      match net config.endpoint_url with
      | .ok _ => { success := true, message := "Agoda ARI sync completed successfully" }
      | .fail e => { success := false, message := "Agoda sync failed: " ++ e }
  | some .airbnb =>
      match net config.endpoint_url with
      | .ok _ => { success := true, message := "Airbnb ARI sync completed successfully" }
      | .fail e => { success := false, message := "Airbnb sync failed: " ++ e }
  | none => { success := false, message := "Unsupported OTA: " ++ config.ota_name }

/-- Whether a sync attempt for `config` succeeds under network `net`. -/
def syncSucceeds (net : Net) (config : Config) : Bool :=
  (syncOutcomeOf net config).success

/-- The last_sync_at column of the (first) configuration with the given id,
when it exists. -/
def lastSyncOf (db : DB) (id : Nat) : Option (Option Nat) :=
  (db.configurations.find? (fun c => c.id == id)).map (·.last_sync_at)

/-- A network that accepts every request. -/
def netOK : Net := fun _ => .ok ""

/-- Fixtures: concrete configurations and stores for exercising the model. -/
def cfgAgoda : Config :=
  { id := 1, ota_name := "agoda", api_key := some "k1", api_username := none,
    api_password := none, endpoint_url := "https://example/agoda",
    hotel_id := some "H1", is_active := true, last_sync_at := none,
    sync_frequency := 60 }

def cfgAirbnb : Config :=
  { id := 2, ota_name := "airbnb", api_key := some "k2", api_username := none,
    api_password := none, endpoint_url := "https://example/airbnb",
    hotel_id := some "H1", is_active := true, last_sync_at := none,
    sync_frequency := 60 }

def cfgExpedia : Config :=
  { id := 9, ota_name := "expedia", api_key := some "k9", api_username := none,
    api_password := none, endpoint_url := "https://example/expedia",
    hotel_id := some "H1", is_active := true, last_sync_at := none,
    sync_frequency := 60 }

def cfgBookingDot : Config :=
  { id := 3, ota_name := "booking.com", api_key := none,
    api_username := some "u", api_password := some "p",
    endpoint_url := "https://example/bcom", hotel_id := some "H1",
    is_active := true, last_sync_at := none, sync_frequency := 60 }

def roomDeluxe : Room :=
  { id := 7, room_name := "Deluxe", price_per_night := 100, is_active := true }

/-- Extracts the number of availability-snapshot computations a syncAll run
performed, when the run was accepted. -/
def snapshotsOf (r : Except String (AggregateResult × DB × List NetCall × Nat)) :
    Option Nat :=
  match r with
  | .ok x => some x.2.2.2
  | .error _ => none

def exDB1 : DB :=
  { configurations := [cfgAgoda, cfgAirbnb], rooms := [roomDeluxe],
    bookings := [], sync_logs := [], next_id := 3 }

def exDB3 : DB :=
  { configurations := [cfgAgoda, cfgExpedia], rooms := [roomDeluxe],
    bookings := [], sync_logs := [], next_id := 10 }

def exDB7 : DB :=
  { configurations := []
    rooms := [{ id := 1, room_name := "A", price_per_night := 90, is_active := true },
              { id := 2, room_name := "B", price_per_night := 80, is_active := true }]
    bookings := [{ room_id := 1, booking_status := .confirmed,
                   check_in_date := 0, check_out_date := 10 },
                 { room_id := 2, booking_status := .confirmed,
                   check_in_date := 0, check_out_date := 5 }]
    sync_logs := []
    next_id := 1 }

def emptyDB : DB :=
  { configurations := [], rooms := [], bookings := [], sync_logs := [],
    next_id := 1 }

def bodyAgoda : CreateBody :=
  { ota_name := "agoda", api_key := some "k1", api_username := none,
    api_password := none, endpoint_url := "https://example/agoda",
    hotel_id := some "H1", sync_frequency := 60 }

def dbAgodaOnly : DB :=
  { configurations := [cfgAgoda], rooms := [], bookings := [], sync_logs := [],
    next_id := 2 }

def exDB5 : DB :=
  { configurations := [cfgAgoda, cfgAirbnb], rooms := [], bookings := [],
    sync_logs := [], next_id := 3 }

def ubodyAgoda : UpdateBody :=
  { ota_name := "agoda", api_key := some "k2", api_username := none,
    api_password := none, endpoint_url := "https://example/airbnb",
    hotel_id := some "H1", sync_frequency := 60, is_active := true }

def exDB5after : DB :=
  { configurations := [cfgAgoda,
      { id := 2, ota_name := "agoda", api_key := some "k2",
        api_username := none, api_password := none,
        endpoint_url := "https://example/airbnb", hotel_id := some "H1",
        is_active := true, last_sync_at := none, sync_frequency := 60 }],
    rooms := [], bookings := [], sync_logs := [], next_id := 3 }

def logEntry1 : SyncLog :=
  { ota_configuration_id := 1, sync_type := "availability",
    status := "success", message := "ok", records_processed := 1 }

def exDB8 : DB :=
  { configurations := [cfgAgoda], rooms := [], bookings := [],
    sync_logs := [logEntry1], next_id := 2 }

def bodyAgodaUpper : CreateBody :=
  { ota_name := "Agoda", api_key := some "k3", api_username := none,
    api_password := none, endpoint_url := "https://example/agoda2",
    hotel_id := some "H1", sync_frequency := 60 }

def cfgBookingDot1 : Config :=
  { id := 1, ota_name := "booking.com", api_key := none,
    api_username := some "u", api_password := some "p",
    endpoint_url := "https://example/bcom", hotel_id := some "H1",
    is_active := true, last_sync_at := none, sync_frequency := 60 }

def dbBookingDotOnly : DB :=
  { configurations := [cfgBookingDot1], rooms := [], bookings := [],
    sync_logs := [], next_id := 2 }

def bodyBookingUnderscore : CreateBody :=
  { ota_name := "booking_com", api_key := none, api_username := some "u2",
    api_password := some "p2", endpoint_url := "https://example/bcom2",
    hotel_id := some "H1", sync_frequency := 60 }

def dbBothBookings : DB :=
  { configurations := [cfgBookingDot1,
      { id := 2, ota_name := "booking_com", api_key := none,
        api_username := some "u2", api_password := some "p2",
        endpoint_url := "https://example/bcom2", hotel_id := some "H1",
        is_active := true, last_sync_at := none, sync_frequency := 60 }],
    rooms := [], bookings := [], sync_logs := [], next_id := 3 }

theorem logSyncOperation_rooms (logOk : Bool) (db : DB) (e : SyncLog) :
    (logSyncOperation logOk db e).rooms = db.rooms := by
  unfold logSyncOperation; split <;> rfl

theorem logSyncOperation_bookings (logOk : Bool) (db : DB) (e : SyncLog) :
    (logSyncOperation logOk db e).bookings = db.bookings := by
  unfold logSyncOperation; split <;> rfl

theorem logSyncOperation_configurations (logOk : Bool) (db : DB) (e : SyncLog) :
    (logSyncOperation logOk db e).configurations = db.configurations := by
  unfold logSyncOperation; split <;> rfl

theorem updateLastSync_sync_logs (db : DB) (id : Nat) (now : Nat) :
    (updateLastSync db id now).sync_logs = db.sync_logs := rfl

theorem performOTASync_outcome (net : Net) (logOk : Bool) (today : Int)
    (now : Nat) (db : DB) (config : Config) :
    (performOTASync net logOk today now db config).outcome = syncOutcomeOf net config := by
  cases h : adapterFor config.ota_name with
  | none => simp [performOTASync, dispatchSync, syncOutcomeOf, h]
  | some p =>
      cases p <;>
        cases hn : net config.endpoint_url <;>
          simp [performOTASync, dispatchSync, syncOutcomeOf, h, hn,
            syncBookingComARI, syncAgodaARI, syncAirbnbARI]

theorem performOTASync_rooms (net : Net) (logOk : Bool) (today : Int)
    (now : Nat) (db : DB) (config : Config) :
    (performOTASync net logOk today now db config).db.rooms = db.rooms ∧
    (performOTASync net logOk today now db config).db.bookings = db.bookings := by
  constructor <;>
  · simp only [performOTASync]
    split <;>
      simp [updateLastSync, logSyncOperation_rooms, logSyncOperation_bookings]

theorem buildSnapshot_congr (db db' : DB) (today : Int)
    (hr : db.rooms = db'.rooms) (hb : db.bookings = db'.bookings) :
    buildSnapshot db today = buildSnapshot db' today := by
  unfold buildSnapshot
  rw [hr, hb]

/-- An adapter dispatch makes exactly one network call to the configured
endpoint, carrying exactly the room list it was handed. -/
theorem dispatchSync_calls (net : Net) (config : Config)
    (rooms : List RoomAvailabilityRecord) (pr : SyncOutcome × List NetCall)
    (h : dispatchSync net config rooms = some pr) :
    pr.2 = [{ url := config.endpoint_url, rooms := rooms }] := by
  unfold dispatchSync at h
  split at h <;> cases h <;>
    simp only [syncBookingComARI, syncAgodaARI, syncAirbnbARI] <;>
    cases net config.endpoint_url <;> rfl

theorem performOTASync_calls_rooms (net : Net) (logOk : Bool) (today : Int)
    (now : Nat) (db : DB) (config : Config) :
    ∀ call ∈ (performOTASync net logOk today now db config).netCalls,
      call.rooms = buildSnapshot db today := by
  simp only [performOTASync]
  split
  · next o calls hpr =>
      have h2 := dispatchSync_calls net config (buildSnapshot db today) (o, calls) hpr
      simp only at h2
      simp [h2]
  · simp

theorem performOTASync_snapshots (net : Net) (logOk : Bool) (today : Int)
    (now : Nat) (db : DB) (config : Config) :
    (performOTASync net logOk today now db config).snapshotsComputed = 1 := by
  simp only [performOTASync]
  split <;> rfl

theorem runAll_results (net : Net) (logOk : Bool) (today : Int) (now : Nat)
    (cs : List Config) (db : DB) :
    (runAll net logOk today now db cs).1 = cs.map (fun c =>
      { ota_name := c.ota_name
        success := syncSucceeds net c
        message := (syncOutcomeOf net c).message }) := by
  induction cs generalizing db with
  | nil => rfl
  | cons c cs ih =>
      simp only [runAll, List.map_cons, ih, syncSucceeds, performOTASync_outcome]

theorem runAll_frame (net : Net) (logOk : Bool) (today : Int) (now : Nat)
    (cs : List Config) (db : DB) :
    (runAll net logOk today now db cs).2.1.rooms = db.rooms ∧
    (runAll net logOk today now db cs).2.1.bookings = db.bookings := by
  induction cs generalizing db with
  | nil => exact ⟨rfl, rfl⟩
  | cons c cs ih =>
      have hstep := performOTASync_rooms net logOk today now db c
      have htail := ih (performOTASync net logOk today now db c).db
      simp only [runAll]
      exact ⟨htail.1.trans hstep.1, htail.2.trans hstep.2⟩

theorem runAll_snapshots (net : Net) (logOk : Bool) (today : Int) (now : Nat)
    (cs : List Config) (db : DB) :
    (runAll net logOk today now db cs).2.2.2 = cs.length := by
  induction cs generalizing db with
  | nil => rfl
  | cons c cs ih =>
      simp only [runAll, performOTASync_snapshots, ih, List.length_cons,
        Nat.add_comm]

theorem runAll_calls_rooms (net : Net) (logOk : Bool) (today : Int) (now : Nat)
    (cs : List Config) (db : DB) :
    ∀ call ∈ (runAll net logOk today now db cs).2.2.1,
      call.rooms = buildSnapshot db today := by
  induction cs generalizing db with
  | nil => simp [runAll]
  | cons c cs ih =>
      intro call hc
      simp only [runAll, List.mem_append] at hc
      rcases hc with hc | hc
      · exact performOTASync_calls_rooms net logOk today now db c call hc
      · have hstep := performOTASync_rooms net logOk today now db c
        have := ih (performOTASync net logOk today now db c).db call hc
        rwa [buildSnapshot_congr _ db today hstep.1 hstep.2] at this

theorem filter_length_split {α : Type} (p : α → Bool) (l : List α) :
    (l.filter p).length + (l.filter (fun a => !(p a))).length = l.length := by
  induction l with
  | nil => rfl
  | cons a l ih =>
      cases h : p a <;> simp [List.filter_cons, h, ← ih] <;> omega

theorem dispatchSync_eq_none (net : Net) (config : Config)
    (rooms : List RoomAvailabilityRecord)
    (h : dispatchSync net config rooms = none) :
    adapterFor config.ota_name = none := by
  unfold dispatchSync at h
  split at h <;> simp_all

theorem find?_map_update (l : List Config) (id now : Nat) :
    ((l.map (fun c => if c.id == id then { c with last_sync_at := some now } else c)).find?
        (fun c => c.id == id)) =
      (l.find? (fun c => c.id == id)).map (fun c => { c with last_sync_at := some now }) := by
  induction l with
  | nil => rfl
  | cons c l ih =>
      simp only [List.map_cons]
      by_cases h : c.id = id
      · rw [if_pos (by simpa using h)]
        rw [List.find?_cons_of_pos _ (by simpa using h),
          List.find?_cons_of_pos _ (by simpa using h)]
        rfl
      · rw [if_neg (by simpa using h)]
        rw [List.find?_cons_of_neg _ (by simpa using h),
          List.find?_cons_of_neg _ (by simpa using h)]
        exact ih

/-- C2 (amended): on a loaded configuration, performOTASync sets last_sync_at
to the current time whenever the partner is supported — on success and on
adapter transport failure alike — but the unsupported-partner path throws
before the UPDATE, so there last_sync_at is left unchanged. -/
theorem lastSync_update_semantics (net : Net) (logOk : Bool) (today : Int)
    (now : Nat) (db : DB) (config : Config)
    (hfound : (lastSyncOf db config.id).isSome) :
    (adapterFor config.ota_name ≠ none →
      lastSyncOf (performOTASync net logOk today now db config).db config.id
        = some (some now)) ∧
    (adapterFor config.ota_name = none →
      lastSyncOf (performOTASync net logOk today now db config).db config.id
        = lastSyncOf db config.id) := by
  have hfind : ∃ c, db.configurations.find? (fun x => x.id == config.id) = some c := by
    unfold lastSyncOf at hfound
    cases hc : db.configurations.find? (fun x => x.id == config.id) with
    | none => rw [hc] at hfound; simp at hfound
    | some c => exact ⟨c, rfl⟩
  obtain ⟨c, hc⟩ := hfind
  constructor
  · intro hsupp
    simp only [performOTASync]
    split
    · next o calls hpr =>
        simp only [lastSyncOf, updateLastSync, logSyncOperation_configurations]
        rw [find?_map_update, hc]
        rfl
    · next hpr => exact absurd (dispatchSync_eq_none net config _ hpr) hsupp
  · intro hnone
    have hd : dispatchSync net config (buildSnapshot db today) = none := by
      unfold dispatchSync; rw [hnone]
    simp [performOTASync, hd, lastSyncOf, logSyncOperation_configurations]

/-- C2 witness: a supported partner (agoda) with a transport FAILURE still
gets last_sync_at set to the current time. -/
theorem lastSync_update_semantics_witness :
    lastSyncOf (performOTASync (fun _ => .fail "timeout") true 0 42
      { configurations := [cfgAgoda], rooms := [roomDeluxe], bookings := [],
        sync_logs := [], next_id := 2 } cfgAgoda).db 1 = some (some 42) :=
  (lastSync_update_semantics (fun _ => .fail "timeout") true 0 42
      { configurations := [cfgAgoda], rooms := [roomDeluxe], bookings := [],
        sync_logs := [], next_id := 2 } cfgAgoda (by decide)).1 (by decide)

/-- C2 counterexample: an active configuration with an unsupported partner
name is a sync attempt whose last_sync_at is NOT updated to the current
time: it stays NULL. -/
theorem lastSync_not_updated_on_unsupported :
    cfgExpedia.is_active = true ∧
    lastSyncOf (performOTASync netOK true 0 42
      { configurations := [cfgExpedia], rooms := [roomDeluxe], bookings := [],
        sync_logs := [], next_id := 10 } cfgExpedia).db 9 = some none ∧
    (some (none : Option Nat) : Option (Option Nat)) ≠ some (some 42) := by
  refine ⟨rfl, by decide, by decide⟩

/-- C4 (amended): when the lowercased partner name matches none of the
switch cases (booking.com, booking_com, agoda, airbnb), performOTASync
returns success = false with the message "Unsupported OTA: <name>" and
makes zero network calls. -/
theorem unsupported_partner_no_network (net : Net) (logOk : Bool)
    (today : Int) (now : Nat) (db : DB) (config : Config)
    (h : adapterFor config.ota_name = none) :
    (performOTASync net logOk today now db config).outcome.success = false ∧
    (performOTASync net logOk today now db config).outcome.message =
      "Unsupported OTA: " ++ config.ota_name ∧
    (performOTASync net logOk today now db config).netCalls = [] := by
  have hd : dispatchSync net config (buildSnapshot db today) = none := by
    unfold dispatchSync; rw [h]
  simp [performOTASync, hd]

/-- C4 witness: the name "expedia" dispatches to no adapter, so its sync
fails with the unsupported-OTA message and no network call. -/
theorem unsupported_partner_no_network_witness :
    (performOTASync netOK true 0 0
      { configurations := [cfgExpedia], rooms := [roomDeluxe], bookings := [],
        sync_logs := [], next_id := 10 } cfgExpedia).outcome.success = false ∧
    (performOTASync netOK true 0 0
      { configurations := [cfgExpedia], rooms := [roomDeluxe], bookings := [],
        sync_logs := [], next_id := 10 } cfgExpedia).outcome.message =
      "Unsupported OTA: " ++ cfgExpedia.ota_name ∧
    (performOTASync netOK true 0 0
      { configurations := [cfgExpedia], rooms := [roomDeluxe], bookings := [],
        sync_logs := [], next_id := 10 } cfgExpedia).netCalls = [] :=
  unsupported_partner_no_network netOK true 0 0
    { configurations := [cfgExpedia], rooms := [roomDeluxe], bookings := [],
      sync_logs := [], next_id := 10 } cfgExpedia (by decide)

/-- C4 counterexample: the name "booking.com" is NOT in the claim's set of
names (booking_com, agoda, airbnb), yet its sync succeeds and makes one
network call (the switch also accepts the case "booking.com"). -/
theorem unsupported_set_counterexample :
    "booking.com" ∉ ["booking_com", "agoda", "airbnb"] ∧
    (performOTASync netOK true 0 0
      { configurations := [cfgBookingDot], rooms := [roomDeluxe], bookings := [],
        sync_logs := [], next_id := 4 } cfgBookingDot).outcome.success = true ∧
    (performOTASync netOK true 0 0
      { configurations := [cfgBookingDot], rooms := [roomDeluxe], bookings := [],
        sync_logs := [], next_id := 4 } cfgBookingDot).netCalls.length = 1 := by
  refine ⟨by decide, by decide, by decide⟩

/-- C6: every performOTASync call appends exactly one log entry when the
log write succeeds (on every path, success, transport failure and
unsupported partner alike); and a failed log write is swallowed — the
store's log is simply unchanged and the primary outcome returned to the
caller is identical. -/
theorem sync_logged_exactly_once (net : Net) (today : Int) (now : Nat)
    (db : DB) (config : Config) :
    (∃ e, (performOTASync net true today now db config).db.sync_logs
        = db.sync_logs ++ [e]) ∧
    (performOTASync net false today now db config).db.sync_logs = db.sync_logs ∧
    (performOTASync net false today now db config).outcome
      = (performOTASync net true today now db config).outcome := by
  cases h : dispatchSync net config (buildSnapshot db today) with
  | some pr =>
      obtain ⟨o, calls⟩ := pr
      refine ⟨⟨{ ota_configuration_id := config.id, sync_type := "availability",
                 status := if o.success then "success" else "failed",
                 message := o.message,
                 records_processed := (buildSnapshot db today).length }, ?_⟩, ?_, ?_⟩ <;>
        simp [performOTASync, h, logSyncOperation, updateLastSync]
  | none =>
      refine ⟨⟨{ ota_configuration_id := config.id, sync_type := "availability",
                 status := "failed",
                 message := "Unsupported OTA: " ++ config.ota_name,
                 records_processed := 0 }, ?_⟩, ?_, ?_⟩ <;>
        simp [performOTASync, h, logSyncOperation]

/-- C9: POST /test-connection/:id is read-only: any number of repeated
calls leaves the store exactly as it was (so in particular last_sync_at and
the sync log are untouched). -/
theorem testConnection_readonly (net : Net) (db : DB) (id : Nat) (n : Nat) :
    (fun d => (testConnection net d id).2)^[n] db = db ∧
    (testConnection net db id).2 = db := by
  have h1 : ∀ d : DB, (testConnection net d id).2 = d := by
    intro d
    cases h : d.configurations.find? (fun c => c.id == id) <;>
      simp [testConnection, h]
  refine ⟨?_, h1 db⟩
  induction n with
  | zero => rfl
  | succ n ih => rw [Function.iterate_succ_apply, h1, ih]

/-- C1 counterexample: a sync-all over TWO active configurations runs the
availability-snapshot query twice (once inside each performOTASync call),
not once — the snapshot is not precomputed and shared. -/
theorem snapshot_not_computed_once :
    (exDB1.configurations.filter (·.is_active)).length = 2 ∧
    snapshotsOf (syncAll netOK true 0 5 exDB1) = some 2 := by
  refine ⟨by decide, by decide⟩

theorem syncAll_ok (net : Net) (logOk : Bool) (today : Int) (now : Nat)
    (db : DB) (h : (db.configurations.filter (·.is_active)).isEmpty = false) :
    syncAll net logOk today now db = .ok
      ({ total_otas := (db.configurations.filter (·.is_active)).length
         successful_syncs :=
           ((runAll net logOk today now db
             (db.configurations.filter (·.is_active))).1.filter (·.success)).length
         failed_syncs :=
           ((runAll net logOk today now db
             (db.configurations.filter (·.is_active))).1.filter
               (fun x => !x.success)).length
         results := (runAll net logOk today now db
           (db.configurations.filter (·.is_active))).1 },
       (runAll net logOk today now db
         (db.configurations.filter (·.is_active))).2.1,
       (runAll net logOk today now db
         (db.configurations.filter (·.is_active))).2.2.1,
       (runAll net logOk today now db
         (db.configurations.filter (·.is_active))).2.2.2) := by
  simp only [syncAll, h, Bool.false_eq_true, if_false]

/-- C1 (amended): each partner dispatch recomputes the snapshot (one
computation per active configuration), but because the room/booking state
is unchanged during the run, every partner adapter still receives an
identical room-availability view: the room list in every outbound call
equals the snapshot of the initial store. -/
theorem syncAll_snapshot_views (net : Net) (logOk : Bool) (today : Int)
    (now : Nat) (db : DB)
    (h : (db.configurations.filter (·.is_active)).isEmpty = false) :
    ∃ agg db' calls snaps,
      syncAll net logOk today now db = .ok (agg, db', calls, snaps) ∧
      snaps = (db.configurations.filter (·.is_active)).length ∧
      ∀ call ∈ calls, call.rooms = buildSnapshot db today := by
  refine ⟨_, _, _, _, syncAll_ok net logOk today now db h, ?_, ?_⟩
  · exact runAll_snapshots net logOk today now _ db
  · exact runAll_calls_rooms net logOk today now _ db

/-- C1 witness: the amended statement at a concrete two-partner store. -/
theorem syncAll_snapshot_views_witness :
    ∃ agg db' calls snaps,
      syncAll netOK true 0 5 exDB1 = .ok (agg, db', calls, snaps) ∧
      snaps = (exDB1.configurations.filter (·.is_active)).length ∧
      ∀ call ∈ calls, call.rooms = buildSnapshot exDB1 0 :=
  syncAll_snapshot_views netOK true 0 5 exDB1 (by decide)

/-- C3: a sync-all over the N active configurations reports one per-partner
result for each of them, in order, with failed_syncs counting exactly the
configurations whose dispatch fails and successful_syncs the remaining
N - failed ones; no partner's failure removes a sibling's result or turns
the aggregate call into an error. -/
theorem syncAll_partial_failure (net : Net) (logOk : Bool) (today : Int)
    (now : Nat) (db : DB)
    (h : (db.configurations.filter (·.is_active)).isEmpty = false) :
    ∃ agg db' calls snaps,
      syncAll net logOk today now db = .ok (agg, db', calls, snaps) ∧
      agg.results = (db.configurations.filter (·.is_active)).map (fun c =>
        { ota_name := c.ota_name, success := syncSucceeds net c,
          message := (syncOutcomeOf net c).message }) ∧
      agg.total_otas = (db.configurations.filter (·.is_active)).length ∧
      agg.failed_syncs = ((db.configurations.filter (·.is_active)).filter
          (fun c => !(syncSucceeds net c))).length ∧
      agg.successful_syncs =
        (db.configurations.filter (·.is_active)).length - agg.failed_syncs := by
  refine ⟨_, _, _, _, syncAll_ok net logOk today now db h, ?_, ?_, ?_, ?_⟩
  · exact runAll_results net logOk today now _ db
  · rfl
  · show ((runAll net logOk today now db
        (db.configurations.filter (·.is_active))).1.filter
          (fun x => !x.success)).length = _
    rw [runAll_results, List.filter_map, List.length_map]
    rfl
  · show ((runAll net logOk today now db
        (db.configurations.filter (·.is_active))).1.filter (·.success)).length =
      (db.configurations.filter (·.is_active)).length -
        ((runAll net logOk today now db
          (db.configurations.filter (·.is_active))).1.filter
            (fun x => !x.success)).length
    rw [runAll_results, List.filter_map, List.filter_map, List.length_map,
      List.length_map]
    have hs : ((db.configurations.filter (·.is_active)).filter
          (fun c => syncSucceeds net c)).length +
        ((db.configurations.filter (·.is_active)).filter
          (fun c => !(syncSucceeds net c))).length =
        (db.configurations.filter (·.is_active)).length := by
      simpa using filter_length_split (fun c => syncSucceeds net c)
        (db.configurations.filter (·.is_active))
    show ((db.configurations.filter (·.is_active)).filter
        (fun c => syncSucceeds net c)).length =
      (db.configurations.filter (·.is_active)).length -
        ((db.configurations.filter (·.is_active)).filter
          (fun c => !(syncSucceeds net c))).length
    omega

/-- The claim-level reading of the availability condition: some booking of
the room, in status pending or confirmed, has today inside its half-open
stay interval. -/
theorem bookingBlocks_iff (today : Int) (roomId : Nat) (b : Booking) :
    bookingBlocks today roomId b = true ↔
      b.room_id = roomId ∧
      (b.booking_status = .pending ∨ b.booking_status = .confirmed) ∧
      b.check_in_date ≤ today ∧ today < b.check_out_date := by
  simp [bookingBlocks, and_assoc]

/-- C7: a record of the availability snapshot is marked available exactly
when no pending/confirmed booking on its room has today inside the
half-open interval from check-in (inclusive) to check-out (exclusive). -/
theorem snapshot_available_iff (db : DB) (today : Int)
    (rec : RoomAvailabilityRecord) (hrec : rec ∈ buildSnapshot db today) :
    rec.is_available = true ↔
      ¬ ∃ b ∈ db.bookings, b.room_id = rec.id ∧
        (b.booking_status = .pending ∨ b.booking_status = .confirmed) ∧
        b.check_in_date ≤ today ∧ today < b.check_out_date := by
  simp only [buildSnapshot, List.mem_map, List.mem_filter] at hrec
  obtain ⟨r, hr, rfl⟩ := hrec
  show (!(db.bookings.any (bookingBlocks today r.id))) = true ↔ _
  rw [Bool.not_eq_true', ← Bool.not_eq_true]
  apply not_congr
  rw [List.any_eq_true]
  exact exists_congr fun b =>
    and_congr_right fun _ => bookingBlocks_iff today r.id b

/-- C7 witness: with today = 5, room 2's only booking checks out today, so
the snapshot marks it available, and by the theorem no blocking booking
exists for it; room 1 has a confirmed booking spanning today and its
snapshot record is marked unavailable. -/
theorem snapshot_available_iff_witness :
    (¬ ∃ b ∈ exDB7.bookings, b.room_id =
        ({ id := 2, room_name := "B", price_per_night := 80,
           is_available := true } : RoomAvailabilityRecord).id ∧
      (b.booking_status = .pending ∨ b.booking_status = .confirmed) ∧
      b.check_in_date ≤ 5 ∧ 5 < b.check_out_date) ∧
    ({ id := 1, room_name := "A", price_per_night := 90,
       is_available := false } : RoomAvailabilityRecord) ∈ buildSnapshot exDB7 5 :=
  ⟨(snapshot_available_iff exDB7 5 ⟨2, "B", 80, true⟩ (by decide)).mp rfl,
   by decide⟩

/-- C5 (amended): creation rejects a duplicate ota_name and so preserves
the uniqueness invariant; the PUT update route, which writes ota_name with
no duplicate check, does not (see the counterexample). -/
theorem createConfiguration_preserves_unique (db : DB) (body : CreateBody)
    (db' : DB) (hu : uniqueOtaNames db)
    (hok : createConfiguration db body = .ok db') : uniqueOtaNames db' := by
  unfold createConfiguration at hok
  by_cases h1 : (body.ota_name == "" || body.endpoint_url == "") = true
  · rw [if_pos h1] at hok; simp at hok
  · rw [if_neg h1] at hok
    by_cases h2 : (db.configurations.any
      (fun c => lowerString c.ota_name == lowerString body.ota_name)) = true
    · rw [if_pos h2] at hok; simp at hok
    · rw [if_neg h2] at hok
      cases hok
      unfold uniqueOtaNames at hu ⊢
      simp only [List.map_append, List.map_cons, List.map_nil]
      rw [List.nodup_append]
      refine ⟨hu, List.nodup_singleton _, ?_⟩
      rw [List.disjoint_singleton]
      intro hmem
      obtain ⟨c, hc, hceq⟩ := List.mem_map.mp hmem
      exact h2 (List.any_eq_true.mpr ⟨c, hc, by simp [hceq]⟩)

/-- C5 witness: creating "agoda" in an empty store yields a store that
still satisfies the uniqueness invariant. -/
theorem createConfiguration_preserves_unique_witness :
    uniqueOtaNames dbAgodaOnly :=
  createConfiguration_preserves_unique emptyDB bodyAgoda dbAgodaOnly
    (by decide) rfl

/-- C5 counterexample: from a store satisfying the invariant, PUT on
configuration 2 with ota_name "agoda" succeeds and leaves two
configurations sharing the name "agoda" — the interface does not preserve
the invariant. -/
theorem update_breaks_unique :
    uniqueOtaNames exDB5 ∧
    updateConfiguration exDB5 2 ubodyAgoda = .ok exDB5after ∧
    ¬ uniqueOtaNames exDB5after :=
  ⟨by decide, rfl, by decide⟩

/-- C8 (amended): a configuration that has sync log entries cannot be
deleted: the foreign key from ota_sync_logs restricts the DELETE, surfaced
as the internal-error response, so the configuration and its log entries
all remain stored and the log listing still returns each of them. -/
theorem delete_restricted_by_logs (db : DB) (id : Nat)
    (hc : (db.configurations.find? (fun c => c.id == id)).isSome = true)
    (hl : db.sync_logs.any (fun l => l.ota_configuration_id == id) = true) :
    deleteConfiguration db id = .error "Internal server error" ∧
    ∀ l ∈ db.sync_logs, l.ota_configuration_id = id →
      ∃ v ∈ listSyncLogs db none, v.log = l := by
  obtain ⟨c, hcc⟩ := Option.isSome_iff_exists.mp hc
  constructor
  · unfold deleteConfiguration
    rw [hcc]
    simp [hl]
  · intro l hlmem hlid
    refine ⟨{ log := l, ota_name := c.ota_name }, ?_, rfl⟩
    unfold listSyncLogs
    rw [List.mem_filterMap]
    refine ⟨l, List.mem_filter.mpr ⟨hlmem, rfl⟩, ?_⟩
    rw [hlid, hcc]
    rfl

/-- C8 witness: the amended statement at a one-configuration store with one
log entry. -/
theorem delete_restricted_by_logs_witness :
    deleteConfiguration exDB8 1 = .error "Internal server error" ∧
    ∀ l ∈ exDB8.sync_logs, l.ota_configuration_id = 1 →
      ∃ v ∈ listSyncLogs exDB8 none, v.log = l :=
  delete_restricted_by_logs exDB8 1 (by decide) (by decide)

/-- C8 counterexample: configuration 1 has a log entry, and deleting it
FAILS — the operator cannot delete a configuration that has log entries,
contrary to the claim. -/
theorem delete_with_logs_fails :
    exDB8.sync_logs ≠ [] ∧
    deleteConfiguration exDB8 1 = .error "Internal server error" :=
  ⟨by decide, rfl⟩

/-- C10 counterexample: with "agoda" already stored, creating "Agoda" —
the claim's example pair differing only in letter case — is REJECTED as a
duplicate: under the column's case-insensitive collation the gate matches
the stored row, so the pair cannot both be created. -/
theorem case_pair_not_creatable :
    createConfiguration dbAgodaOnly bodyAgodaUpper =
      .error "Configuration already exists for this OTA" := rfl

/-- C10 (amended): the duplicate gate compares ota_name case-insensitively
(the SQL equality runs under MySQL's default collation), so any request
whose name equals a stored one up to letter case is rejected as a
duplicate; the gate is nevertheless coarser than sync dispatch, which
lowercases and accepts several spellings: the distinct names "booking.com"
and "booking_com" both pass the gate and both dispatch to the same
Booking.com adapter. -/
theorem duplicate_gate_case_insensitive (db : DB) (body : CreateBody)
    (hreq : (body.ota_name == "" || body.endpoint_url == "") = false)
    (hdup : ∃ c ∈ db.configurations,
        lowerString c.ota_name = lowerString body.ota_name) :
    createConfiguration db body =
      .error "Configuration already exists for this OTA" ∧
    createConfiguration dbBookingDotOnly bodyBookingUnderscore =
      .ok dbBothBookings ∧
    adapterFor "booking.com" = some .booking_com ∧
    adapterFor "booking_com" = some .booking_com := by
  refine ⟨?_, rfl, by decide, by decide⟩
  obtain ⟨c, hc, he⟩ := hdup
  unfold createConfiguration
  rw [if_neg (by simp [hreq]),
    if_pos (List.any_eq_true.mpr ⟨c, hc, by simp [he]⟩)]

/-- C10 witness: the amended statement at the store holding "agoda" and
the case-variant request "Agoda". -/
theorem duplicate_gate_case_insensitive_witness :
    createConfiguration dbAgodaOnly bodyAgodaUpper =
      .error "Configuration already exists for this OTA" ∧
    createConfiguration dbBookingDotOnly bodyBookingUnderscore =
      .ok dbBothBookings ∧
    adapterFor "booking.com" = some .booking_com ∧
    adapterFor "booking_com" = some .booking_com :=
  duplicate_gate_case_insensitive dbAgodaOnly bodyAgodaUpper (by decide)
    ⟨cfgAgoda, by decide, by decide⟩

/-- C3 witness: two active configurations of which exactly one (the
unsupported "expedia") fails: the aggregate reports 1 success and 1
failure and still carries both per-partner results. -/
theorem syncAll_partial_failure_witness :
    ∃ agg db' calls snaps,
      syncAll netOK true 0 5 exDB3 = .ok (agg, db', calls, snaps) ∧
      agg.results = (exDB3.configurations.filter (·.is_active)).map (fun c =>
        { ota_name := c.ota_name, success := syncSucceeds netOK c,
          message := (syncOutcomeOf netOK c).message }) ∧
      agg.total_otas = (exDB3.configurations.filter (·.is_active)).length ∧
      agg.failed_syncs = ((exDB3.configurations.filter (·.is_active)).filter
          (fun c => !(syncSucceeds netOK c))).length ∧
      agg.successful_syncs =
        (exDB3.configurations.filter (·.is_active)).length - agg.failed_syncs :=
  syncAll_partial_failure netOK true 0 5 exDB3 (by decide)
